import Mathlib

/-!
Verification development for the HoneyPort repository.

The Python sources under `backend/` and `honeypot/` are shallowly embedded
here.  Commands, addresses and rendered text are `List Char`; Python floats
are embedded as exact rationals `ℚ` (every constant in the scoring code is a
finite decimal, so all arithmetic performed by the scorer is exact and
`round(x, 6)` is the identity on the values that actually arise); wall-clock
inputs (`datetime.now()`) are explicit parameters; fallible calls are
`Except`; the process-wide analysis cache is explicit state passed through
`analyze`.
-/

/-- Commands, addresses and responses are modelled as lists of characters,
mirroring Python `str` values (ASCII in all inputs the system handles). -/
abbrev Str : Type := List Char

/-- Convert a Lean string literal to the `Str` model. -/
def chars (s : String) : Str := s.toList

/-- The characters Python `str.strip()` / `str.split()` treat as whitespace. -/
def isPySpace (c : Char) : Bool :=
  c = ' ' || c = '\t' || c = '\n' || c = '\r' || c = '\x0b' || c = '\x0c'

/-- Python `str.lower()` on a single ASCII character. -/
def pyLowerChar (c : Char) : Char :=
  if 'A' ≤ c ∧ c ≤ 'Z' then Char.ofNat (c.toNat + 32) else c

/-- Python `str.lower()` (ASCII range, which covers every input handled). -/
def lowerStr (s : Str) : Str := s.map pyLowerChar

/-- Python `str.lstrip()`. -/
def lstrip (s : Str) : Str := s.dropWhile isPySpace

/-- Python `str.rstrip()`. -/
def rstrip (s : Str) : Str := (s.reverse.dropWhile isPySpace).reverse

/-- Python `str.strip()`. -/
def stripStr (s : Str) : Str := rstrip (lstrip s)

/-- Boolean prefix test (Python `str.startswith`). -/
def isPrefB : Str → Str → Bool
  | [], _ => true
  | _ :: _, [] => false
  | a :: as, b :: bs => a = b && isPrefB as bs

/-- Boolean substring test: `containsSub s pat` is Python `pat in s`. -/
def containsSub : Str → Str → Bool
  | [], pat => pat.isEmpty
  | c :: rest, pat => isPrefB pat (c :: rest) || containsSub rest pat

/-- Number of non-overlapping occurrences, Python `s.count(sub)` (the
auxiliary recursion consumes at least one character per step, so the
`s.length` fuel is enough for every input). -/
def countSubAux (pat : Str) : ℕ → Str → ℕ
  | 0, _ => 0
  | _ + 1, [] => 0
  | fuel + 1, c :: rest =>
    if isPrefB pat (c :: rest) ∧ pat ≠ [] then
      1 + countSubAux pat fuel ((c :: rest).drop pat.length)
    else
      countSubAux pat fuel rest

/-- Python `s.count(sub)` for a nonempty `sub`. -/
def countSub (s pat : Str) : ℕ := countSubAux pat s.length s

/-- Python `s.split()` (split on whitespace runs, discarding empties). -/
def splitWsAux (cur : Str) : Str → List Str
  | [] => if cur.isEmpty then [] else [cur.reverse]
  | c :: rest =>
    if isPySpace c then
      if cur.isEmpty then splitWsAux [] rest
      else cur.reverse :: splitWsAux [] rest
    else splitWsAux (c :: cur) rest

/-- Python `s.split()` with no argument. -/
def splitWs (s : Str) : List Str := splitWsAux [] s

/-- Python `s.split(sep)` for a single-character separator (keeps empties). -/
def splitCharAux (sep : Char) (cur : Str) : Str → List Str
  | [] => [cur.reverse]
  | c :: rest =>
    if c = sep then cur.reverse :: splitCharAux sep [] rest
    else splitCharAux sep (c :: cur) rest

/-- Python `s.split(sep)` for a one-character `sep`. -/
def splitChar (sep : Char) (s : Str) : List Str := splitCharAux sep [] s

/-- Python `s.isdigit()` (ASCII digits; empty string is `False`). -/
def pyIsDigit (s : Str) : Bool := !s.isEmpty && s.all Char.isDigit

/-- Python `s.replace(old, new)` for single characters. -/
def replaceChar (old new : Char) (s : Str) : Str :=
  s.map (fun c => if c = old then new else c)

/-- The distinct characters of `s` in first-occurrence order (the keys of the
`char_counts` dictionary built by `AIManager.extract_features`). -/
def distinctChars (s : Str) : Str :=
  s.foldl (fun acc c => if acc.contains c then acc else acc.concat c) []

/-- The character counts of `s` (the values of the `char_counts` dict). -/
def charCountVals (s : Str) : List ℕ :=
  (distinctChars s).map (fun c => s.count c)

/-- Decidable embedding of the comparison `entropy > 4` performed by
`AIManager._heuristic_score`, where
`entropy = -Σ (c/n)·log2(c/n) = (1/n)·log2 (n^n / Π c^c)` for the
character counts `c` summing to `n = len(command)`.  Since `log2` is
strictly monotone, `entropy > 4  ↔  n^n > 2^(4n) · Π c^c`, an exact
integer inequality (for `n = 0` Python computes entropy `0`, and the
right side gives `1 > 1 = false`, in agreement). -/
def entropyGtFour (s : Str) : Bool :=
  let n := s.length
  decide (n ^ n > 2 ^ (4 * n) * (charCountVals s).foldl (fun a c => a * c ^ c) 1)

/-! ### SHA-256 (used by `hashlib.sha256` for the threat signature) -/

/-- 2^32, the word modulus of SHA-256. -/
def w32 : ℕ := 4294967296

/-- Addition modulo 2^32. -/
def add32 (a b : ℕ) : ℕ := (a + b) % w32

/-- Right rotation of a 32-bit word. -/
def rotr32 (n x : ℕ) : ℕ := ((x >>> n) ||| (x <<< (32 - n))) % w32

/-- Bitwise complement of a 32-bit word. -/
def not32 (x : ℕ) : ℕ := x ^^^ (w32 - 1)

/-- The first sixty-four primes, from which FIPS 180-4 derives the SHA-256
round constants (fractional cube roots) and, from the first eight, the
initial hash state (fractional square roots). -/
def firstPrimes : List ℕ :=
  [2, 3, 5, 7, 11, 13, 17, 19, 23, 29, 31, 37, 41, 43, 47, 53,
   59, 61, 67, 71, 73, 79, 83, 89, 97, 101, 103, 107, 109, 113, 127, 131,
   137, 139, 149, 151, 157, 163, 167, 173, 179, 181, 191, 193, 197, 199, 211, 223,
   227, 229, 233, 239, 241, 251, 257, 263, 269, 271, 277, 281, 283, 293, 307, 311]

/-- Integer cube root by bisection (`lo` always has `lo³ ≤ n < hi³`). -/
def icbrtAux (n : ℕ) : ℕ → ℕ → ℕ → ℕ
  | 0, lo, _ => lo
  | fuel + 1, lo, hi =>
    if lo + 1 < hi then
      if ((lo + hi) / 2) ^ 3 ≤ n then icbrtAux n fuel ((lo + hi) / 2) hi
      else icbrtAux n fuel lo ((lo + hi) / 2)
    else lo

/-- Integer cube root. -/
def icbrt (n : ℕ) : ℕ := icbrtAux n 256 0 (n + 1)

/-- SHA-256 round constants: the first 32 bits of the fractional parts of
the cube roots of the first sixty-four primes. -/
def sha256K : List ℕ := firstPrimes.map (fun p => icbrt (p * 2 ^ 96) % w32)

/-- SHA-256 initial hash state: the first 32 bits of the fractional parts of
the square roots of the first eight primes. -/
def sha256H0 : List ℕ := (firstPrimes.take 8).map (fun p => Nat.sqrt (p * 2 ^ 64) % w32)

/-- Big-endian byte serialization of `v` into `n` bytes. -/
def toBytesBE (n v : ℕ) : List ℕ :=
  (List.range n).map (fun i => (v >>> (8 * (n - 1 - i))) % 256)

/-- SHA-256 message padding of a byte sequence. -/
def sha256Pad (msg : List ℕ) : List ℕ :=
  let l := msg.length
  let k := (119 - l % 64) % 64
  msg ++ [0x80] ++ List.replicate k 0 ++ toBytesBE 8 (8 * l)

/-- Split a (padded) byte sequence into 64-byte blocks. -/
def chunk64 (l : List ℕ) : List (List ℕ) :=
  match l with
  | [] => []
  | b :: bs => (b :: bs).take 64 :: chunk64 ((b :: bs).drop 64)
termination_by l.length
decreasing_by
  simp only [List.length_drop, List.length_cons]
  omega

/-- Convert four big-endian bytes into a 32-bit word. -/
def bytesToWords : List ℕ → List ℕ
  | b0 :: b1 :: b2 :: b3 :: rest =>
      (b0 * 16777216 + b1 * 65536 + b2 * 256 + b3) :: bytesToWords rest
  | _ => []

/-- σ₀ of the SHA-256 message schedule. -/
def ssig0 (x : ℕ) : ℕ := rotr32 7 x ^^^ rotr32 18 x ^^^ (x >>> 3)

/-- σ₁ of the SHA-256 message schedule. -/
def ssig1 (x : ℕ) : ℕ := rotr32 17 x ^^^ rotr32 19 x ^^^ (x >>> 10)

/-- Σ₀ of the SHA-256 compression function. -/
def bsig0 (x : ℕ) : ℕ := rotr32 2 x ^^^ rotr32 13 x ^^^ rotr32 22 x

/-- Σ₁ of the SHA-256 compression function. -/
def bsig1 (x : ℕ) : ℕ := rotr32 6 x ^^^ rotr32 11 x ^^^ rotr32 25 x

/-- Extend the 16 block words to the 64-word message schedule. -/
def extendW : ℕ → List ℕ → List ℕ
  | 0, acc => acc
  | n + 1, acc =>
    let i := acc.length
    let nw := add32 (add32 (ssig1 (acc.getD (i - 2) 0)) (acc.getD (i - 7) 0))
      (add32 (ssig0 (acc.getD (i - 15) 0)) (acc.getD (i - 16) 0))
    extendW n (acc ++ [nw])

/-- One SHA-256 compression round; state is the 8-word list `[a,…,h]`. -/
def sha256Round (st : List ℕ) (kw : ℕ × ℕ) : List ℕ :=
  match st with
  | [a, b, c, d, e, f, g, h] =>
    let ch := (e &&& f) ^^^ (not32 e &&& g)
    let maj := (a &&& b) ^^^ (a &&& c) ^^^ (b &&& c)
    let t1 := add32 h (add32 (bsig1 e) (add32 ch (add32 kw.1 kw.2)))
    let t2 := add32 (bsig0 a) maj
    [add32 t1 t2, a, b, c, add32 d t1, e, f, g]
  | other => other

/-- Process one 64-byte block. -/
def sha256Block (st : List ℕ) (block : List ℕ) : List ℕ :=
  let w := extendW 48 (bytesToWords block)
  let fin := (sha256K.zip w).foldl sha256Round st
  (st.zip fin).map (fun p => add32 p.1 p.2)

/-- SHA-256 of a byte sequence, as the 32 digest bytes. -/
def sha256Bytes (msg : List ℕ) : List ℕ :=
  ((chunk64 (sha256Pad msg)).foldl sha256Block sha256H0).flatMap (toBytesBE 4)

/-- UTF-8 encoding of one character (Python `str.encode()`). -/
def utf8Char (c : Char) : List ℕ :=
  let n := c.toNat
  if n < 0x80 then [n]
  else if n < 0x800 then [0xC0 ||| (n >>> 6), 0x80 ||| (n &&& 0x3F)]
  else if n < 0x10000 then
    [0xE0 ||| (n >>> 12), 0x80 ||| ((n >>> 6) &&& 0x3F), 0x80 ||| (n &&& 0x3F)]
  else
    [0xF0 ||| (n >>> 18), 0x80 ||| ((n >>> 12) &&& 0x3F),
     0x80 ||| ((n >>> 6) &&& 0x3F), 0x80 ||| (n &&& 0x3F)]

/-- UTF-8 encoding of a string (Python `str.encode()`). -/
def utf8Encode (s : Str) : List ℕ := s.flatMap utf8Char

/-- Upper-case hexadecimal digit. -/
def hexDigitU (n : ℕ) : Char := (chars "0123456789ABCDEF").getD n '0'

/-- Upper-case hex rendering of a byte sequence
(`hashlib.sha256(...).hexdigest()` followed by `.upper()`). -/
def hexUpper (bs : List ℕ) : Str :=
  bs.flatMap (fun b => [hexDigitU (b / 16), hexDigitU (b % 16)])

/-! ### `backend/aetherion_app.py` — `analyze_command_threat` -/

/-- The `threat_scoring` buckets of `analyze_command_threat`, in the order the
dictionary is initialised. -/
structure ThreatScoring where
  command_complexity : ℚ
  suspicious_patterns : ℚ
  privilege_escalation : ℚ
  data_access : ℚ
  system_modification : ℚ
  network_activity : ℚ
  code_execution : ℚ
  information_gathering : ℚ
deriving DecidableEq, Repr

/-- `threat_patterns['system_destruction']`. -/
def sysDestrPatterns : List Str :=
  [chars "rm -rf/", chars "del /f", chars "format c:", chars "mkfs", chars "dd if="]

/-- `threat_patterns['privilege_escalation']`. -/
def privEscPatterns : List Str :=
  [chars "sudo", chars "su -", chars "chmod +s", chars "setuid", chars "passwd"]

/-- `threat_patterns['data_access']`. -/
def dataAccessPatterns : List Str :=
  [chars "cat /etc/passwd", chars "cat /etc/shadow", chars "cat /proc/", chars "strings "]

/-- `threat_patterns['network_exploitation']`. -/
def netExploitPatterns : List Str :=
  [chars "nc -l", chars "nc ", chars "netcat", chars "telnet", chars "ssh -i"]

/-- `threat_patterns['code_execution']`. -/
def codeExecPatterns : List Str :=
  [chars "python -c", chars "bash -c", chars "sh -c", chars "eval(", chars "exec("]

/-- `threat_patterns['system_reconnaissance']`. -/
def reconPatterns : List Str :=
  [chars "whoami", chars "id", chars "uname -a", chars "ps aux", chars "netstat"]

/-- `threat_patterns['file_manipulation']`. -/
def fileManipPatterns : List Str :=
  [chars "chmod +x", chars "mv ", chars "cp ", chars "touch ", chars "mkdir "]

/-- `command_lower = command.lower().strip()`, the string the pattern table is
matched against. -/
def cmdLower (cmd : Str) : Str := stripStr (lowerStr cmd)

/-- How many patterns of a category list occur in `s` (the per-category loop
adds a fixed weight once for each pattern string present). -/
def presentCount (pats : List Str) (s : Str) : ℕ :=
  pats.countP (fun p => containsSub s p)

/-- `special_chars = sum(1 for c in command if not c.isalnum() and c not in ' ')`. -/
def specialCount (cmd : Str) : ℕ :=
  (cmd.filter (fun c => !c.isAlphanum && c ≠ ' ')).length

/-- `char_ratio = special_chars / len(command) if command else 0`. -/
def charRatioVal (cmd : Str) : ℚ :=
  if cmd.isEmpty then 0 else (specialCount cmd : ℚ) / (cmd.length : ℚ)

/-- The command-complexity bucket (`len(command) > 150` / `> 100`). -/
def bComplexity (cmd : Str) : ℚ :=
  if 150 < cmd.length then 0.2 else if 100 < cmd.length then 0.15 else 0

/-- `'&&' in command or '||' in command or ';' in command` (command chaining). -/
def chainFlag (cmd : Str) : Bool :=
  containsSub cmd (chars "&&") || containsSub cmd (chars "||") || containsSub cmd (chars ";")

/-- `'$((' in command or '`' in command` (command substitution). -/
def substFlag (cmd : Str) : Bool :=
  containsSub cmd (chars "$((") || containsSub cmd (chars "`")

/-- `command.count('"') > 2 or command.count("'") > 4` (complex quoting). -/
def quoteFlag (cmd : Str) : Bool :=
  decide (2 < cmd.count '"') || decide (4 < cmd.count '\'')

/-- The additions to `suspicious_patterns` other than the character-ratio one
(command chaining, command substitution, complex quoting). -/
def bSuspiciousRest (cmd : Str) : ℚ :=
  (if chainFlag cmd then 0.15 else 0) + (if substFlag cmd then 0.18 else 0) +
    (if quoteFlag cmd then 0.12 else 0)

/-- The full `suspicious_patterns` bucket: the `char_ratio > 0.3` addition
plus chaining/substitution/quoting. -/
def bSuspicious (cmd : Str) : ℚ :=
  (if 0.3 < charRatioVal cmd then 0.2 else 0) + bSuspiciousRest cmd

/-- The `privilege_escalation` bucket: `+= 0.25` per matched pattern. -/
def bPrivilege (cmd : Str) : ℚ := presentCount privEscPatterns (cmdLower cmd) * 0.25

/-- The `data_access` bucket: `+= 0.2` per matched pattern. -/
def bDataAccess (cmd : Str) : ℚ := presentCount dataAccessPatterns (cmdLower cmd) * 0.2

/-- The `system_modification` bucket: `+= 0.3` per system-destruction match
and `+= 0.15` per file-manipulation match. -/
def bSystemMod (cmd : Str) : ℚ :=
  presentCount sysDestrPatterns (cmdLower cmd) * 0.3 +
    presentCount fileManipPatterns (cmdLower cmd) * 0.15

/-- `ip and not any(x in ip for x in ['192.168', '10.', '172.16', '127.', '::1'])`. -/
def externalIpFlag (ip : Str) : Bool :=
  !ip.isEmpty &&
    !(containsSub ip (chars "192.168") || containsSub ip (chars "10.") ||
      containsSub ip (chars "172.16") || containsSub ip (chars "127.") ||
      containsSub ip (chars "::1"))

/-- The `network_activity` bucket: `+= 0.22` per network-exploitation match
plus the `+= 0.08` external-address bonus. -/
def bNetwork (cmd ip : Str) : ℚ :=
  presentCount netExploitPatterns (cmdLower cmd) * 0.22 +
    (if externalIpFlag ip then 0.08 else 0)

/-- The `code_execution` bucket: `+= 0.28` per matched pattern. -/
def bCodeExec (cmd : Str) : ℚ := presentCount codeExecPatterns (cmdLower cmd) * 0.28

/-- The `information_gathering` bucket: `+= 0.18` per matched pattern. -/
def bInfoGather (cmd : Str) : ℚ := presentCount reconPatterns (cmdLower cmd) * 0.18

/-- The fully-populated `threat_scoring` dictionary. -/
def threatScoring (cmd ip : Str) : ThreatScoring where
  command_complexity := bComplexity cmd
  suspicious_patterns := bSuspicious cmd
  privilege_escalation := bPrivilege cmd
  data_access := bDataAccess cmd
  system_modification := bSystemMod cmd
  network_activity := bNetwork cmd ip
  code_execution := bCodeExec cmd
  information_gathering := bInfoGather cmd

/-- `total_score = sum(threat_scoring.values())`. -/
def totalScore (cmd ip : Str) : ℚ :=
  (threatScoring cmd ip).command_complexity + (threatScoring cmd ip).suspicious_patterns +
  (threatScoring cmd ip).privilege_escalation + (threatScoring cmd ip).data_access +
  (threatScoring cmd ip).system_modification + (threatScoring cmd ip).network_activity +
  (threatScoring cmd ip).code_execution + (threatScoring cmd ip).information_gathering

/-- `anomaly_score = min(1.0, total_score * 0.75)`.  The subsequent
`round(anomaly_score, 6)` is the identity here: every bucket value is a
multiple of 1/100, so the product with 0.75 is a multiple of 1/10000. -/
def anomalyScore (cmd ip : Str) : ℚ := min 1 (totalScore cmd ip * 0.75)

/-- The threat-level / confidence assignment of `analyze_command_threat`
(both are set together in one `if/elif` cascade). -/
def tierConf (s : ℚ) : Str × ℚ :=
  if 0.85 ≤ s then (chars "CRITICAL", 0.96)
  else if 0.65 ≤ s then (chars "HIGH", 0.88)
  else if 0.35 ≤ s then (chars "MEDIUM", 0.72)
  else (chars "LOW", 0.52)

/-- The `indicators` list, appended in source order. -/
def indicatorsOf (b : ThreatScoring) : List Str :=
  (if 0.2 < b.privilege_escalation then [chars "Privilege Escalation Attempt"] else []) ++
  (if 0.2 < b.code_execution then [chars "Code Execution Pattern"] else []) ++
  (if 0.25 < b.system_modification then [chars "System Modification Threat"] else []) ++
  (if 0.15 < b.data_access then [chars "Unauthorized Data Access"] else []) ++
  (if 0.15 < b.network_activity then [chars "Suspicious Network Activity"] else []) ++
  (if 0.15 < b.information_gathering then [chars "Reconnaissance Activity"] else []) ++
  (if 0.2 < b.suspicious_patterns then [chars "Advanced Attack Patterns"] else [])

/-- The attack-vector classification `if/elif` cascade of
`analyze_command_threat`, reading the populated buckets. -/
def attackVectorOf (b : ThreatScoring) : Str :=
  if 0.25 < b.system_modification then chars "System Destruction"
  else if 0.2 < b.privilege_escalation then chars "Privilege Escalation"
  else if 0.25 < b.code_execution then chars "Code Injection"
  else if 0.18 < b.data_access then chars "Data Exfiltration"
  else if 0.2 < b.network_activity then chars "Network Intrusion"
  else if 0.15 < b.information_gathering then chars "Reconnaissance"
  else chars "Generic Command"

/-- The `datetime.now()` value, split into the two renderings the analyzer
uses: `strftime('%Y%m%d')` and `isoformat()`. -/
structure PyDateTime where
  dayStr : Str
  isoStr : Str
deriving DecidableEq, Repr

/-- `threat_signature`: first 16 upper-case hex characters of
`sha256(f"{command}:{ip}:{now.strftime('%Y%m%d')}")`. -/
def threatSignature (cmd ip day : Str) : Str :=
  (hexUpper (sha256Bytes (utf8Encode (cmd ++ [':'] ++ ip ++ [':'] ++ day)))).take 16

/-- The dictionary returned by `analyze_command_threat`. -/
structure AetherionAnalysis where
  threat_level : Str
  anomaly_score : ℚ
  confidence : ℚ
  attack_vector : Str
  indicators : List Str
  scoring_breakdown : ThreatScoring
  threat_signature : Str
  analyzer_version : Str
  analysis_timestamp : Str
deriving DecidableEq, Repr

/-- `analyze_command_threat(command, ip)`, with the implicit `datetime.now()`
made an explicit argument. -/
def analyze_command_threat (cmd ip : Str) (now : PyDateTime) : AetherionAnalysis where
  threat_level := (tierConf (anomalyScore cmd ip)).1
  anomaly_score := anomalyScore cmd ip
  confidence := (tierConf (anomalyScore cmd ip)).2
  attack_vector := attackVectorOf (threatScoring cmd ip)
  indicators := indicatorsOf (threatScoring cmd ip)
  scoring_breakdown := threatScoring cmd ip
  threat_signature := threatSignature cmd ip now.dayStr
  analyzer_version := chars "AetherionBot 1.0"
  analysis_timestamp := now.isoStr

/-- The `ThreatAssessment` fields of the data model (§3 of the spec): the
analysis minus the constant version string and the wall-clock timestamp. -/
structure ThreatAssessment where
  threat_level : Str
  anomaly_score : ℚ
  confidence : ℚ
  attack_vector : Str
  indicators : List Str
  scoring_breakdown : ThreatScoring
  threat_signature : Str
deriving DecidableEq, Repr

/-- Project an analysis onto its `ThreatAssessment` fields. -/
def AetherionAnalysis.assessment (a : AetherionAnalysis) : ThreatAssessment where
  threat_level := a.threat_level
  anomaly_score := a.anomaly_score
  confidence := a.confidence
  attack_vector := a.attack_vector
  indicators := a.indicators
  scoring_breakdown := a.scoring_breakdown
  threat_signature := a.threat_signature

/-! ### `backend/ai.py` — `AIManager` -/

/-- The `suspicious_patterns` table of `AIManager.extract_features`. -/
def suspiciousList : List Str :=
  [chars "rm -rf", chars "sudo", chars "su -", chars "passwd", chars "shadow",
   chars "iptables", chars "netstat", chars "ps aux", chars "whoami", chars "id",
   chars "curl", chars "wget", chars "nc ", chars "netcat", chars "telnet",
   chars "ftp", chars "nmap", chars "hydra", chars "john", chars "hashcat",
   chars "python", chars "bash", chars "sh ", chars "chmod", chars "chown",
   chars "kill", chars "pkill", chars "killall", chars "systemctl",
   chars "journalctl", chars "cat /etc", chars "cat /proc", chars "ls -la",
   chars "find ", chars "grep ", chars "awk", chars "sed", chars "xargs", chars "..",
   chars "/dev/null", chars "2>&1", chars ">/dev/null", chars "&&", chars "||"]

/-- The features dictionary built by `AIManager.extract_features`.  The
real-valued Shannon entropy is carried as the character-count multiset it is
computed from plus the decidable `entropy > 4` comparison, the only use the
heuristic path makes of it. -/
structure Features where
  length : ℕ
  word_count : ℕ
  digit_count : ℕ
  special_char_count : ℕ
  uppercase_count : ℕ
  path_depth : ℕ
  has_numbers : Bool
  suspicious_patterns : ℕ
  detected_patterns : List Str
  char_counts : List ℕ
  entropy_gt_four : Bool
  has_file_path : Bool
  has_url : Bool
  has_ip : Bool
deriving DecidableEq, Repr

/-- `part.replace('.', '').isdigit() and len(part.split('.')) == 4` for one
whitespace token. -/
def dottedQuadTok (part : Str) : Bool :=
  pyIsDigit (part.filter (fun c => c ≠ '.')) && decide ((splitChar '.' part).length = 4)

/-- `AIManager.extract_features(command)`. -/
def extract_features (cmd : Str) : Features where
  length := cmd.length
  word_count := (splitWs cmd).length
  digit_count := (cmd.filter Char.isDigit).length
  special_char_count := (cmd.filter (fun c => !c.isAlphanum && !isPySpace c)).length
  uppercase_count := (cmd.filter Char.isUpper).length
  path_depth := cmd.count '/'
  has_numbers := !(cmd.filter Char.isDigit).isEmpty
  suspicious_patterns := suspiciousList.countP (fun p => containsSub (lowerStr cmd) p)
  detected_patterns := suspiciousList.filter (fun p => containsSub (lowerStr cmd) p)
  char_counts := charCountVals cmd
  entropy_gt_four := entropyGtFour cmd
  has_file_path := containsSub cmd (chars "/") || containsSub cmd (chars "\\")
  has_url := containsSub cmd (chars "http://") || containsSub cmd (chars "https://")
  has_ip := (splitWs cmd).any dottedQuadTok

/-- `AIManager._heuristic_score(features)`. -/
def heuristic_score (f : Features) : ℚ :=
  min 1 ((if 50 < f.length then 0.2 else 0) + f.suspicious_patterns * 0.15 +
    (if 5 < f.special_char_count then 0.1 else 0) +
    (if f.entropy_gt_four then 0.2 else 0) +
    (if f.has_file_path then 0.1 else 0))

/-- A loaded anomaly model, embedded as the whole `try:` body of
`AIManager.predict_anomaly` (feature-vector construction, scaling and
`decision_function`/`predict` together): it either yields the final
normalized score or raises. -/
abbrev AnomalyModel : Type := Features → Except Str ℚ

/-- `AIManager.predict_anomaly(features)`: no model falls back to the
heuristic, and an exception anywhere in the model path is caught and also
falls back to the heuristic. -/
def predict_anomaly (model : Option AnomalyModel) (f : Features) : ℚ :=
  match model with
  | none => heuristic_score f
  | some m =>
    match m f with
    | Except.ok s => s
    | Except.error _ => heuristic_score f

/-- `AIManager.get_threat_level(anomaly_score)` (note: these thresholds are
0.8 / 0.6 / 0.4, unlike the 0.85 / 0.65 / 0.35 cascade of
`analyze_command_threat`). -/
def get_threat_level (s : ℚ) : Str :=
  if 0.8 ≤ s then chars "CRITICAL"
  else if 0.6 ≤ s then chars "HIGH"
  else if 0.4 ≤ s then chars "MEDIUM"
  else chars "LOW"

/-- The dictionary returned by `AIManager.validate_command`. -/
structure Validation where
  command : Str
  features : Features
  anomaly_score : ℚ
  threat_level : Str
  risk_factors : List Str
  analysis_timestamp : ℕ
deriving DecidableEq, Repr

/-- `AIManager.validate_command(command)`; `t` is the `datetime.now()`
timestamp taken when the analysis runs. -/
def validate_command (model : Option AnomalyModel) (cmd : Str) (t : ℕ) : Validation where
  command := cmd
  features := extract_features cmd
  anomaly_score := predict_anomaly model (extract_features cmd)
  threat_level := get_threat_level (predict_anomaly model (extract_features cmd))
  risk_factors := (extract_features cmd).detected_patterns
  analysis_timestamp := t

/-! ### `honeypot/ai_analysis.py` — `AIAnalyzer` -/

/-- The `attack_patterns` table of `AIAnalyzer._detect_attack_patterns`,
in dictionary order: category name and keyword list. -/
def attackPatternTable : List (Str × List Str) :=
  [(chars "privilege_escalation",
     [chars "sudo", chars "su -", chars "su root", chars "su -l", chars "su -"]),
   (chars "file_manipulation",
     [chars "rm -rf", chars "rm -rf /", chars "dd if=", chars "cat >", chars "echo >"]),
   (chars "system_enumeration",
     [chars "cat /etc/passwd", chars "cat /etc/shadow", chars "uname -a", chars "ps aux"]),
   (chars "network_scanning",
     [chars "nmap", chars "masscan", chars "zmap", chars "nc -z", chars "nc -v"]),
   (chars "command_injection",
     [chars "; ", chars "&&", chars "||", chars "|", chars "`", chars "$(",
      chars "$\x7b\x7b"]),
   (chars "data_exfiltration",
     [chars "curl", chars "wget", chars "scp", chars "rsync", chars "nc-"]),
   (chars "service_disruption",
     [chars "kill -9", chars "killall", chars "systemctl stop", chars "service stop"]),
   (chars "malicious_scripting",
     [chars "python -c", chars "bash -c", chars "sh -c", chars "curl | sh"]),
   (chars "authentication_bypass",
     [chars "passwd", chars "ssh-copy-id", chars "ssh-keygen", chars "id_rsa"]),
   (chars "persistence",
     [chars "crontab", chars "systemctl enable", chars ".bashrc", chars ".profile"])]

/-- `AIAnalyzer._detect_attack_patterns(command)`. -/
def detect_attack_patterns (cmd : Str) : List Str :=
  (attackPatternTable.filter
    (fun e => e.2.any (fun kw => containsSub (lowerStr cmd) kw))).map Prod.fst

/-- `AIAnalyzer._calculate_complexity(command)` (the `elif len > 100` branch
is embedded as in the source, where it is shadowed by the `len > 50` test). -/
def calculate_complexity (cmd : Str) : ℚ :=
  min 1 ((if 50 < cmd.length then 0.2 else if 100 < cmd.length then 0.4 else 0) +
    cmd.count '|' * 0.1 +
    cmd.count ';' * 0.1 +
    countSub cmd (chars "&&") * 0.15 +
    countSub cmd (chars "||") * 0.15 +
    countSub cmd (chars "$(") * 0.2 +
    cmd.count '`' * 0.15 +
    cmd.count '>' * 0.05 +
    cmd.count '<' * 0.05 +
    countSub cmd (chars "2>&1") * 0.1 +
    (if 5 < (splitWs cmd).length then 0.1 else 0))

/-- Decimal rendering of a natural number. -/
def natChars (n : ℕ) : Str := chars (Nat.repr n)

/-- The analysis dictionary built by `AIAnalyzer.analyze_command` on a cache
miss: the `validate_command` result extended with the IP context, session id,
attack patterns and complexity score. -/
structure AIAnalysis where
  command : Str
  features : Features
  anomaly_score : ℚ
  threat_level : Str
  risk_factors : List Str
  analysis_timestamp : ℕ
  ip : Str
  timestamp : ℕ
  session_id : Str
  attack_patterns : List Str
  complexity_score : ℚ
deriving DecidableEq, Repr

/-- The fresh (uncached) computation performed by
`AIAnalyzer.analyze_command`; `t` is the `datetime.now()` instant. -/
def computeAnalysis (model : Option AnomalyModel) (cmd ip : Str) (t : ℕ) : AIAnalysis where
  command := (validate_command model cmd t).command
  features := (validate_command model cmd t).features
  anomaly_score := (validate_command model cmd t).anomaly_score
  threat_level := (validate_command model cmd t).threat_level
  risk_factors := (validate_command model cmd t).risk_factors
  analysis_timestamp := t
  ip := ip
  timestamp := t
  session_id := ip ++ ['_'] ++ natChars t
  attack_patterns := detect_attack_patterns cmd
  complexity_score := calculate_complexity cmd

/-- `cache_key = f"{ip}:{command}"`. -/
def cacheKey (ip cmd : Str) : Str := ip ++ [':'] ++ cmd

/-- `self.cache_size = 1000`. -/
def cacheSize : ℕ := 1000

/-- The analysis cache: an insertion-ordered association list, mirroring the
(insertion-ordered) Python dict `self.analysis_cache`. -/
abbrev CacheState : Type := List (Str × AIAnalysis)

/-- `AIAnalyzer._cache_analysis(cache_key, analysis)`: when the dict has
reached `cache_size` entries, the first `cache_size // 5` keys in insertion
order are deleted, then the new entry is appended.  Generic in the stored
value, as the dict operations are. -/
def cache_analysis (cache : List (Str × α)) (k : Str) (v : α) : List (Str × α) :=
  (if cacheSize ≤ cache.length then cache.drop (cacheSize / 5) else cache) ++ [(k, v)]

/-- `cache_key in self.analysis_cache` / `self.analysis_cache[cache_key]`. -/
def lookupCache (cache : List (Str × α)) (k : Str) : Option α :=
  (cache.find? (fun p => decide (p.1 = k))).map Prod.snd

/-- `AIAnalyzer.analyze_command(command, ip)` with the cache state made
explicit: returns the analysis and the updated cache. -/
def analyzer_step (model : Option AnomalyModel) (st : CacheState) (cmd ip : Str)
    (t : ℕ) : AIAnalysis × CacheState :=
  match lookupCache st (cacheKey ip cmd) with
  | some a => (a, st)
  | none =>
    (computeAnalysis model cmd ip t,
      cache_analysis st (cacheKey ip cmd) (computeAnalysis model cmd ip t))

/-! ### `honeypot/handlers.py` — `ConnectionHandler` response generation -/

/-- Canned `ls -la` / `ls -a` output. -/
def respLsLa : Str := chars
  "total 84\ndrwxr-xr-x 22 root root  4096 Jan 15 10:30 .\ndrwxr-xr-x 23 root root  4096 Dec 23 08:15 ..\n-rw-------  1 root root  1234 Jan 14 09:20 .bash_history\n-rw-r--r--  1 root root  2043 Jan 01 00:00 .bashrc\ndrwxr-xr-x  2 root root  4096 Nov 30 12:45 backups\n-rwxr-xr-x  1 root root  8192 Jan 02 15:20 cronjob.sh\ndrwxr-xr-x  3 root root  4096 Dec 15 14:30 data\n-rw-r--r--  1 root root  1024 Jan 10 18:30 config.ini\n-rwxr-xr-x  1 root root  4096 Dec 28 16:45 deploy.sh\ndrwxr-xr-x  2 root root  4096 Jan 05 11:20 logs\ndrwxrwxr-x  2 root root  4096 Dec 20 09:15 temp\n-rwxr-xr-x  1 root root  2048 Jan 12 13:25 update.sh\n-rwxr-xr-x  1 root root  512  Dec 18 07:30 watchdog.sh"

/-- Canned plain `ls` output. -/
def respLs : Str := chars
  "backups  config.ini  cronjob.sh  data  deploy.sh  logs  temp  update.sh  watchdog.sh"

/-- Canned `ps aux` output. -/
def respPsAux : Str := chars
  "USER       PID %CPU %MEM    VSZ   RSS TTY      STAT START   TIME COMMAND\nroot         1  0.0  0.1 225836  9216 ?        Ss   Jan15   0:02 /sbin/init\nroot         2  0.0  0.0      0     0 ?        S    Jan15   0:00 [kthreadd]\nroot         3  0.0  0.0      0     0 ?        I<   Jan15   0:00 [rcu_gp]\nroot         4  0.0  0.0      0     0 ?        I<   Jan15   0:00 [rcu_par_gp]\nroot         5  0.0  0.0      0     0 ?        I<   Jan15   0:00 [netns]\nroot        87 0.0 0.3 201532 24784 ?        Ss   Jan15   0:00 sshd: /usr/sbin/sshd [listener] \nroot       234 0.0 0.1 185268  8504 ?        Ss   Jan15   0:00 crond"

/-- Canned `cat /etc/passwd` output. -/
def respPasswd : Str := chars
  "root:x:0:0:root:/root:/bin/bash\ndaemon:x:1:1:daemon:/usr/sbin:/usr/sbin/nologin\nbin:x:2:2:bin:/bin:/usr/sbin/nologin\nsys:x:3:3:sys:/dev:/usr/sbin/nologin\nsync:x:4:65534:sync:/bin:/bin/sync\ngames:x:5:60:games:/usr/games:/usr/sbin/nologin\nman:x:6:12:man:/var/cache/man:/usr/sbin/nologin\nlp:x:7:7:lp:/var/spool/lpd:/usr/sbin/nologin\nmail:x:8:8:mail:/var/mail:/usr/sbin/nologin\nnews:x:9:9:news:/var/spool/news:/usr/sbin/nologin"

/-- Canned `netstat` output. -/
def respNetstat : Str := chars
  "Active Internet connections (only servers)\nProto Recv-Q Send-Q Local Address           Foreign Address         State      \ntcp        0      0 0.0.0.0:22              0.0.0.0:*               LISTEN     \ntcp        0      0 127.0.0.1:6379          0.0.0.0:*               LISTEN     \ntcp6       0      0 :::22                    :::*                    LISTEN     \ntcp6       0      0 :::80                    :::*                    LISTEN"

/-- Canned `curl` / `wget` output. -/
def respCurl : Str := chars
  "Connected to example.com (93.184.216.34:80)\nHTTP/1.1 200 OK\nDate: Mon, 15 Jan 2024 10:30:45 GMT\nServer: nginx/1.18.0\nContent-Type: text/html; charset=UTF-8\n\n<html>\n<head><title>Welcome to Example Server</title></head>\n<body><h1>Server is running</h1></body>\n</html>"

/-- Canned `free` output. -/
def respFree : Str := chars
  "              total        used        free      shared  buff/cache   available\nMem:        8053068     2048560     1234567       245678     4770941     3456789\nSwap:       2097148           0     2097148"

/-- Canned `df` output. -/
def respDf : Str := chars
  "Filesystem     Size  Used Avail Use% Mounted on\n/dev/sda1       20G  8.5G   11G  45% /\n/dev/sda2        8G  2.1G  5.9G  27% /var\ntmpfs          3.9G     0  3.9G   0% /dev/shm"

/-- Canned `history` output. -/
def respHistory : Str := chars
  "   1  ls -la\n   2  whoami  \n   3  pwd\n   4  date\n   5  uptime\n   6  ps aux"

/-- Canned `env` output. -/
def respEnv : Str := chars
  "PATH=/usr/local/sbin:/usr/local/bin:/usr/sbin:/usr/bin:/sbin:/bin\nTERM=xterm-256color\nSHELL=/bin/bash\nHOME=/root\nUSER=root\nPWD=/root"

/-- `ConnectionHandler._get_command_response(command)`.  The input is the
already-stripped command; `clock` is `datetime.now().strftime('%H:%M:%S')`,
the only wall-clock dependence in the branch table (the `date` branch).
For a command with no tokens the source raises `IndexError` on
`command.split()[0]`; that point is unreachable from the server loop (empty
commands are filtered out before response generation) and is embedded as the
empty first token. -/
def get_command_response (cmd : Str) (clock : Str) : Str :=
  let lw := lowerStr cmd
  if isPrefB (chars "ls") lw then
    (if containsSub lw (chars "-la") || containsSub lw (chars "-a") then respLsLa else respLs)
  else if decide (lw = chars "pwd") then chars "/root"
  else if decide (lw = chars "whoami") then chars "root"
  else if isPrefB (chars "uname") lw then
    chars "Linux server 5.4.0-94-generic #106-Ubuntu SMP Thu Jan 6 23:58:14 UTC 2022 x86_64 x86_64 x86_64 GNU/Linux"
  else if decide (lw = chars "id") then chars "uid=0(root) gid=0(root) groups=0(root)"
  else if isPrefB (chars "ps aux") lw then respPsAux
  else if isPrefB (chars "cat /etc/passwd") lw then respPasswd
  else if isPrefB (chars "netstat") lw then respNetstat
  else if isPrefB (chars "curl") lw || isPrefB (chars "wget") lw then respCurl
  else if isPrefB (chars "python") lw then
    chars "Python 3.8.10 (default, Jun 22 2022, 20:18:18)\n[GCC 9.4.0] on linux"
  else if isPrefB (chars "date") lw then
    chars "Mon Jan 15 " ++ clock ++ chars " UTC 2024"
  else if isPrefB (chars "uptime") lw then
    chars " 10:30:45 up 23 days, 8:45, 1 user, load average: 0.08, 0.03, 0.00"
  else if isPrefB (chars "free") lw then respFree
  else if isPrefB (chars "df") lw then respDf
  else if isPrefB (chars "history") lw then respHistory
  else if isPrefB (chars "env") lw then respEnv
  else if isPrefB (chars "echo") lw then
    ['"'] ++ stripStr (cmd.drop 4) ++ ['"']
  else if isPrefB (chars "touch") lw then
    chars "touch: creating file '" ++ stripStr (cmd.drop 5) ++ chars "': Permission denied"
  else if isPrefB (chars "mkdir") lw then
    chars "mkdir: cannot create directory 'test': File exists"
  else if isPrefB (chars "rm") lw then
    chars "rm: cannot remove '/root/test': No such file or directory"
  else if isPrefB (chars "su ") lw || isPrefB (chars "sudo") lw then
    chars "Authenticate as super user:"
  else
    chars "-bash: " ++ ((splitWs cmd).headD []) ++ chars ": command not found"

/-- The `_add_suspicious_output` notice pool (HIGH/CRITICAL tiers). -/
def suspiciousNotices : List Str :=
  [chars "\nWarning: Suspicious activity detected",
   chars "\nSystem integrity check initiated...",
   chars "\nAccess denied to secure component",
   chars "\n[ALERT] Security module activated",
   chars "\nMonitoring command execution..."]

/-- The `_add_warning_output` notice pool (MEDIUM tier). -/
def warningNotices : List Str :=
  [chars "\nNote: Command logged for security audit",
   chars "\nWarning: Unusual command pattern detected",
   chars "\nSystem monitoring active"]

/-- `ConnectionHandler.generate_response(command, analysis)`.  `threat_level`
is `analysis.get("threat_level", "LOW")`; `random.choice` is embedded as
selection by the explicit index `rand` (the process randomness source). -/
def generate_response (cmd : Str) (threat_level : Str) (clock : Str) (rand : ℕ) : Str :=
  let body := get_command_response (stripStr cmd) clock
  (if decide (threat_level = chars "HIGH") || decide (threat_level = chars "CRITICAL") then
    body ++ suspiciousNotices.getD (rand % 5) []
  else if decide (threat_level = chars "MEDIUM") then
    body ++ warningNotices.getD (rand % 3) []
  else body) ++ chars "\n[root@server ~]# "

/-! ### `honeypot/telegram_alert.py` — `TelegramManager` -/

/-- The two environment credentials read at construction
(`TELEGRAM_BOT_TOKEN`, `TELEGRAM_CHAT_ID`); `none` models an unset
variable. -/
structure TelegramConfig where
  botToken : Option Str
  chatId : Option Str
deriving DecidableEq, Repr

/-- Python truthiness of an optional string (`bool(x)`). -/
def truthyOpt : Option Str → Bool
  | none => false
  | some s => !s.isEmpty

/-- `TelegramManager.is_configured()`: `bool(self.bot_token and self.chat_id)`. -/
def is_configured (cfg : TelegramConfig) : Bool :=
  truthyOpt cfg.botToken && truthyOpt cfg.chatId

/-- Replace every occurrence of a character by a string
(Python `str.replace` as used by `_sanitize_command`). -/
def replaceCharStr (old : Char) (new : Str) (s : Str) : Str :=
  s.flatMap (fun c => if c = old then new else [c])

/-- `TelegramManager._sanitize_command(command)`: escape `<` and `>`, then
escape `&` (which, as in the source, re-escapes the ampersands just
introduced), then truncate past 500 characters. -/
def sanitize_command (cmd : Str) : Str :=
  let safe := replaceCharStr '&' (chars "&amp;")
    (replaceCharStr '>' (chars "&gt;") (replaceCharStr '<' (chars "&lt;") cmd))
  if 500 < safe.length then safe.take 500 ++ chars "... [truncated]" else safe

/-- Python `f"{q:.3f}"` on the nonnegative scores that reach the alert
(every score the scorers produce is an exact multiple of 1/1000, so the
rounding mode of the float formatter is immaterial here). -/
def fmtFix3 (q : ℚ) : Str :=
  let m := (round (q * 1000) : ℤ).toNat
  let f := natChars (m % 1000)
  natChars (m / 1000) ++ ['.'] ++ List.replicate (3 - f.length) '0' ++ f

/-- The threat-level emoji table of `send_alert`
(`threat_emojis.get(threat_level, "⚠️")`). -/
def threatEmoji (lvl : Str) : Str :=
  if decide (lvl = chars "LOW") then chars "🟢"
  else if decide (lvl = chars "MEDIUM") then chars "🟡"
  else if decide (lvl = chars "HIGH") then chars "🟠"
  else if decide (lvl = chars "CRITICAL") then chars "🚨"
  else chars "⚠️"

/-- The alert message f-string of `send_alert` (after the `None` check on the
score has been passed); `now` is `datetime.now().strftime(...)`. -/
def buildAlertMessage (cmd ip lvl : Str) (score : ℚ)
    (info : List (Str × Str)) (now : Str) : Str :=
  threatEmoji lvl ++ chars " <b>AIML Honeypot Alert</b>\n🌍 <b>Source IP:</b> <code>" ++
  ip ++ chars "</code>\n🔍 <b>Threat Level:</b> " ++ lvl ++
  chars "\n💻 <b>Attempted Command:</b>\n<pre>" ++ sanitize_command cmd ++
  chars "</pre>\n📊 <b>Anomaly Score:</b> " ++ fmtFix3 score ++
  chars "\n⏰ <b>Time:</b> " ++ now ++ chars "\n" ++
  (if info.isEmpty then []
   else chars "\n📍 <b>Additional Info:</b>\n" ++
     info.flatMap (fun kv => chars "• " ++ kv.1 ++ chars ": " ++ kv.2 ++ chars "\n")) ++
  chars "\n🤖 <b>Detected by AIML Honeypot</b>"

/-- The possible outcomes of the `requests.post` call inside
`_send_message`: a response whose JSON `ok` field is truthy or not, or one
of the exception classes the `except` clauses distinguish. -/
inductive PostOutcome where
  | success (apiOk : Bool)
  | timeoutErr
  | requestErr
  | otherErr
deriving DecidableEq, Repr

/-- The errors `send_alert` itself can raise: formatting `None` with
`:.3f` raises `TypeError`. -/
inductive PyErr where
  | typeError
deriving DecidableEq, Repr

/-- `TelegramManager._send_message(text)`: truncate past the 4096-character
budget, post, and map every exception to a logged `False` — this function
never raises. -/
def send_message (post : Str → PostOutcome) (text : Str) : Bool :=
  let t := if 4096 < text.length then text.take 4093 ++ chars "..." else text
  match post t with
  | PostOutcome.success apiOk => apiOk
  | PostOutcome.timeoutErr => false
  | PostOutcome.requestErr => false
  | PostOutcome.otherErr => false

/-- `TelegramManager.send_alert(command, ip, threat_level, anomaly_score,
additional_info)`.  Unconfigured managers return `False` before touching the
message; otherwise the message f-string is evaluated, which raises
`TypeError` when `anomaly_score` is `None` (its default); delivery then goes
through `_send_message`, which never raises. -/
def send_alert (cfg : TelegramConfig) (post : Str → PostOutcome) (cmd ip lvl : Str)
    (score : Option ℚ) (info : List (Str × Str)) (now : Str) : Except PyErr Bool :=
  if !is_configured cfg then Except.ok false
  else
    match score with
    | none => Except.error PyErr.typeError
    | some q => Except.ok (send_message post (buildAlertMessage cmd ip lvl q info now))

/-! ### Helper lemmas -/

/-- A guarded nonnegative weight is nonnegative. -/
theorem ite_weight_nonneg (c : Prop) [Decidable c] (w : ℚ) (h : 0 ≤ w) :
    0 ≤ if c then w else 0 := by
  split
  · exact h
  · exact le_refl 0

/-- The command-complexity bucket is nonnegative. -/
theorem bComplexity_nonneg (cmd : Str) : 0 ≤ bComplexity cmd := by
  unfold bComplexity
  split_ifs <;> norm_num

/-- The non-ratio part of the suspicious-patterns bucket is nonnegative. -/
theorem bSuspiciousRest_nonneg (cmd : Str) : 0 ≤ bSuspiciousRest cmd := by
  unfold bSuspiciousRest
  have h1 := ite_weight_nonneg (chainFlag cmd = true) (0.15 : ℚ) (by norm_num)
  have h2 := ite_weight_nonneg (substFlag cmd = true) (0.18 : ℚ) (by norm_num)
  have h3 := ite_weight_nonneg (quoteFlag cmd = true) (0.12 : ℚ) (by norm_num)
  linarith

/-- The suspicious-patterns bucket is nonnegative. -/
theorem bSuspicious_nonneg (cmd : Str) : 0 ≤ bSuspicious cmd := by
  unfold bSuspicious
  have h1 := ite_weight_nonneg (0.3 < charRatioVal cmd) (0.2 : ℚ) (by norm_num)
  have h2 := bSuspiciousRest_nonneg cmd
  linarith

/-- Every bucket of the populated scoring dictionary is nonnegative, and so
is their sum. -/
theorem totalScore_nonneg (cmd ip : Str) : 0 ≤ totalScore cmd ip := by
  have h1 := bComplexity_nonneg cmd
  have h2 := bSuspicious_nonneg cmd
  have h3 : (0 : ℚ) ≤ bPrivilege cmd := by unfold bPrivilege; positivity
  have h4 : (0 : ℚ) ≤ bDataAccess cmd := by unfold bDataAccess; positivity
  have h5 : (0 : ℚ) ≤ bSystemMod cmd := by unfold bSystemMod; positivity
  have h6 : (0 : ℚ) ≤ bNetwork cmd ip := by
    unfold bNetwork
    have ha : (0 : ℚ) ≤ presentCount netExploitPatterns (cmdLower cmd) * 0.22 := by positivity
    have hb := ite_weight_nonneg (externalIpFlag ip = true) (0.08 : ℚ) (by norm_num)
    linarith
  have h7 : (0 : ℚ) ≤ bCodeExec cmd := by unfold bCodeExec; positivity
  have h8 : (0 : ℚ) ≤ bInfoGather cmd := by unfold bInfoGather; positivity
  unfold totalScore
  simp only [threatScoring]
  linarith

/-- The anomaly score is clamped into `[0, 1]`. -/
theorem anomalyScore_bounds (cmd ip : Str) :
    0 ≤ anomalyScore cmd ip ∧ anomalyScore cmd ip ≤ 1 := by
  constructor
  · exact le_min (by norm_num) (by nlinarith [totalScore_nonneg cmd ip])
  · exact min_le_left 1 _

/-- The tier buckets exactly as the claim states them: `score ≥ 0.85` is
CRITICAL with confidence 0.96, `≥ 0.65` HIGH with 0.88, `≥ 0.35` MEDIUM with
0.72, otherwise LOW with 0.52.  This definition follows the spec sentence
and is compared against the source's `tierConf` cascade. -/
def claimTierBucket (s : ℚ) : Str × ℚ :=
  if 0.85 ≤ s then (chars "CRITICAL", 0.96)
  else if 0.65 ≤ s then (chars "HIGH", 0.88)
  else if 0.35 ≤ s then (chars "MEDIUM", 0.72)
  else (chars "LOW", 0.52)

/-- C1.  For every analyzed command, the returned `anomaly_score` lies in
`[0, 1]`, and the threat tier together with its confidence is exactly the
fixed threshold bucket of that score (≥0.85 → CRITICAL/0.96, ≥0.65 →
HIGH/0.88, ≥0.35 → MEDIUM/0.72, else LOW/0.52). -/
theorem anomaly_score_bounded_and_tier_is_bucket (cmd ip : Str) (now : PyDateTime) :
    0 ≤ (analyze_command_threat cmd ip now).anomaly_score ∧
    (analyze_command_threat cmd ip now).anomaly_score ≤ 1 ∧
    ((analyze_command_threat cmd ip now).threat_level,
        (analyze_command_threat cmd ip now).confidence) =
      claimTierBucket (analyze_command_threat cmd ip now).anomaly_score := by
  refine ⟨(anomalyScore_bounds cmd ip).1, (anomalyScore_bounds cmd ip).2, ?_⟩
  rfl

/-- C2.  Two analyzer calls with the same command and source address on the
same calendar day produce the same `ThreatAssessment` in every field,
including `threat_signature` (the wall-clock `analysis_timestamp` of the
returned dictionary is not an assessment field). -/
theorem analysis_deterministic_per_day (cmd ip : Str) (n1 n2 : PyDateTime)
    (h : n1.dayStr = n2.dayStr) :
    (analyze_command_threat cmd ip n1).assessment =
      (analyze_command_threat cmd ip n2).assessment := by
  unfold AetherionAnalysis.assessment analyze_command_threat
  simp only [h]

/-- Witness for C2: the same day, two different clock instants. -/
theorem analysis_deterministic_per_day_witness :
    (analyze_command_threat (chars "cat /etc/passwd") (chars "203.0.113.25")
        ⟨chars "20240115", chars "2024-01-15T10:30:45"⟩).assessment =
      (analyze_command_threat (chars "cat /etc/passwd") (chars "203.0.113.25")
        ⟨chars "20240115", chars "2024-01-15T18:02:11"⟩).assessment :=
  analysis_deterministic_per_day (chars "cat /etc/passwd") (chars "203.0.113.25")
    ⟨chars "20240115", chars "2024-01-15T10:30:45"⟩
    ⟨chars "20240115", chars "2024-01-15T18:02:11"⟩ rfl

/-- The attack-vector priority selection exactly as the claim states it:
system-modification first, then privilege-escalation, code-execution,
data-access, network-activity, information-gathering, and the default
"Generic Command"; the first bucket exceeding its threshold wins.  This
definition follows the spec sentence and is compared against the source's
`attackVectorOf` cascade. -/
def claimVectorPriority (b : ThreatScoring) : Str :=
  if 0.25 < b.system_modification then chars "System Destruction"
  else if 0.2 < b.privilege_escalation then chars "Privilege Escalation"
  else if 0.25 < b.code_execution then chars "Code Injection"
  else if 0.18 < b.data_access then chars "Data Exfiltration"
  else if 0.2 < b.network_activity then chars "Network Intrusion"
  else if 0.15 < b.information_gathering then chars "Reconnaissance"
  else chars "Generic Command"

/-- C5.  The attack-vector label is the first-match priority selection over
the scoring buckets, in the fixed order system-modification >
privilege-escalation > code-execution > data-access > network-activity >
information-gathering > "Generic Command". -/
theorem attack_vector_priority_order (cmd ip : Str) (now : PyDateTime) :
    (analyze_command_threat cmd ip now).attack_vector =
      claimVectorPriority (analyze_command_threat cmd ip now).scoring_breakdown := by
  rfl

/-- C6.  The analysis cache is bounded: insertion preserves the capacity
bound, and the insertion that triggers overflow (arriving with the cache at
its 1,000-entry capacity) first evicts the oldest fifth of the entries in
insertion order, leaving `1000 - 200 + 1 = 801 < 1000` entries. -/
theorem cache_bounded_with_oldest_fifth_eviction {α : Type} (cache : List (Str × α))
    (k : Str) (v : α) (h : cache.length ≤ cacheSize) :
    (cache_analysis cache k v).length ≤ cacheSize ∧
    (cache.length = cacheSize →
      cache_analysis cache k v = cache.drop (cacheSize / 5) ++ [(k, v)] ∧
      (cache_analysis cache k v).length = 801 ∧ 801 < cacheSize) := by
  unfold cache_analysis cacheSize at *
  by_cases hc : (1000 : ℕ) ≤ cache.length
  · have hlen : cache.length = 1000 := le_antisymm h hc
    rw [if_pos hc]
    constructor
    · simp [List.length_drop, hlen]
    · intro _
      refine ⟨rfl, ?_, by norm_num⟩
      simp [List.length_drop, hlen]
  · rw [if_neg hc]
    constructor
    · simp only [List.length_append, List.length_cons, List.length_nil]
      omega
    · intro he
      exact absurd (le_of_eq he.symm) hc

/-- Witness for C6: a cache holding exactly 1,000 entries. -/
theorem cache_bounded_with_oldest_fifth_eviction_witness :
    (List.replicate 1000 (chars "k", (0 : ℕ))).length ≤ cacheSize ∧
    ((cache_analysis (List.replicate 1000 (chars "k", (0 : ℕ))) (chars "k2") 1).length ≤
        cacheSize ∧
      ((List.replicate 1000 (chars "k", (0 : ℕ))).length = cacheSize →
        cache_analysis (List.replicate 1000 (chars "k", (0 : ℕ))) (chars "k2") 1 =
          (List.replicate 1000 (chars "k", (0 : ℕ))).drop (cacheSize / 5) ++
            [(chars "k2", 1)] ∧
        (cache_analysis (List.replicate 1000 (chars "k", (0 : ℕ))) (chars "k2") 1).length =
          801 ∧ 801 < cacheSize)) :=
  ⟨le_of_eq (List.length_replicate 1000 _),
    cache_bounded_with_oldest_fifth_eviction _ _ _ (le_of_eq (List.length_replicate 1000 _))⟩

/-- Looking a key up right after caching it finds exactly the cached value,
provided the key was not in the cache before (which is how
`analyze_command` reaches `_cache_analysis`). -/
theorem lookup_after_cache_insert {α : Type} (cache : List (Str × α)) (k : Str) (v : α)
    (h : lookupCache cache k = none) :
    lookupCache (cache_analysis cache k v) k = some v := by
  unfold lookupCache at *
  have hfind : List.find? (fun p => decide (p.1 = k)) cache = none :=
    Option.map_eq_none'.mp h
  have hmem : ∀ x ∈ cache, ¬((fun (p : Str × α) => decide (p.1 = k)) x = true) :=
    List.find?_eq_none.mp hfind
  unfold cache_analysis
  rw [List.find?_append]
  have hpre : List.find? (fun p => decide (p.1 = k))
      (if cacheSize ≤ cache.length then cache.drop (cacheSize / 5) else cache) = none := by
    rw [List.find?_eq_none]
    intro x hx
    apply hmem
    split at hx
    · exact List.mem_of_mem_drop hx
    · exact hx
  rw [hpre]
  simp [List.find?_cons]

/-- C7.  On a cache miss the analyzer computes and caches the assessment; a
second call for the same `(ip, command)` pair, at any later instant, returns
exactly the first computation's dictionary, field for field, leaving the
cache unchanged. -/
theorem cache_hit_returns_first_computation (model : Option AnomalyModel)
    (st : CacheState) (cmd ip : Str) (t t' : ℕ)
    (h : lookupCache st (cacheKey ip cmd) = none) :
    (analyzer_step model st cmd ip t).1 = computeAnalysis model cmd ip t ∧
    analyzer_step model (analyzer_step model st cmd ip t).2 cmd ip t' =
      ((analyzer_step model st cmd ip t).1, (analyzer_step model st cmd ip t).2) := by
  have hstep : analyzer_step model st cmd ip t =
      (computeAnalysis model cmd ip t,
        cache_analysis st (cacheKey ip cmd) (computeAnalysis model cmd ip t)) := by
    unfold analyzer_step
    rw [h]
  refine ⟨by rw [hstep], ?_⟩
  rw [hstep]
  unfold analyzer_step
  rw [lookup_after_cache_insert st (cacheKey ip cmd) (computeAnalysis model cmd ip t) h]

/-- Witness for C7: a fresh cache, heuristic-only model, two instants. -/
theorem cache_hit_returns_first_computation_witness :
    (analyzer_step none [] (chars "ls -la") (chars "192.168.1.50") 5).1 =
      computeAnalysis none (chars "ls -la") (chars "192.168.1.50") 5 ∧
    analyzer_step none (analyzer_step none [] (chars "ls -la") (chars "192.168.1.50") 5).2
        (chars "ls -la") (chars "192.168.1.50") 99 =
      ((analyzer_step none [] (chars "ls -la") (chars "192.168.1.50") 5).1,
        (analyzer_step none [] (chars "ls -la") (chars "192.168.1.50") 5).2) :=
  cache_hit_returns_first_computation none [] (chars "ls -la") (chars "192.168.1.50") 5 99 rfl

/-- C10, counterexample.  The example instance in the claim does not
collide: `"1.2.3.4" + ":" + "x"` and `"1.2.3" + ":" + "4:x"` are different
cache keys (they differ at index 5: `'.'` vs `':'`), and the second call
therefore computes a fresh assessment carrying its own ip, not the first
pair's. -/
theorem claimed_key_collision_example_fails :
    cacheKey (chars "1.2.3.4") (chars "x") ≠ cacheKey (chars "1.2.3") (chars "4:x") ∧
    (analyzer_step none
        (analyzer_step none [] (chars "x") (chars "1.2.3.4") 0).2
        (chars "4:x") (chars "1.2.3") 1).1.ip = chars "1.2.3" := by
  exact ⟨by decide, rfl⟩

/-- C10 as amended: genuinely colliding pairs exist — `("1.2", "3:x")` and
`("1.2:3", "x")` are distinct pairs with the same concatenated key
`"1.2:3:x"`, and the second call returns the cached assessment computed for
the first pair, including the first pair's `ip` and `session_id` fields. -/
theorem cache_key_collision_confuses_pairs :
    ((chars "1.2", chars "3:x") ≠ (chars "1.2:3", chars "x")) ∧
    cacheKey (chars "1.2") (chars "3:x") = cacheKey (chars "1.2:3") (chars "x") ∧
    ∀ (model : Option AnomalyModel) (t1 t2 : ℕ),
      analyzer_step model (analyzer_step model [] (chars "3:x") (chars "1.2") t1).2
          (chars "x") (chars "1.2:3") t2 =
        (computeAnalysis model (chars "3:x") (chars "1.2") t1,
          (analyzer_step model [] (chars "3:x") (chars "1.2") t1).2) ∧
      (analyzer_step model (analyzer_step model [] (chars "3:x") (chars "1.2") t1).2
          (chars "x") (chars "1.2:3") t2).1.ip = chars "1.2" ∧
      (analyzer_step model (analyzer_step model [] (chars "3:x") (chars "1.2") t1).2
          (chars "x") (chars "1.2:3") t2).1.session_id =
        chars "1.2" ++ ['_'] ++ natChars t1 := by
  refine ⟨by decide, rfl, fun model t1 t2 => ⟨rfl, rfl, rfl⟩⟩

/-- C4.  The analyzer path never surfaces an error: the empty command gets a
valid LOW assessment with score 0 on the always-available heuristic path; an
absent model falls back to the heuristic; a model invocation that raises is
caught and the heuristic result is returned instead — also yielding LOW for
the empty command. -/
theorem analyzer_error_handling :
    (∀ t : ℕ, (validate_command none [] t).threat_level = chars "LOW" ∧
      (validate_command none [] t).anomaly_score = 0) ∧
    (∀ f : Features, predict_anomaly none f = heuristic_score f) ∧
    (∀ (m : AnomalyModel) (f : Features) (e : Str),
      m f = Except.error e → predict_anomaly (some m) f = heuristic_score f) ∧
    (∀ (m : AnomalyModel) (t : ℕ) (e : Str),
      m (extract_features []) = Except.error e →
        (validate_command (some m) [] t).threat_level = chars "LOW") := by
  have hfeat0 : heuristic_score (extract_features []) = 0 := by
    have h1 : (extract_features []).length = 0 := rfl
    have h2 : (extract_features []).suspicious_patterns = 0 := rfl
    have h3 : (extract_features []).special_char_count = 0 := rfl
    have h4 : (extract_features []).entropy_gt_four = false := rfl
    have h5 : (extract_features []).has_file_path = false := rfl
    unfold heuristic_score
    rw [h1, h2, h3, h4, h5]
    norm_num
  have hlow : get_threat_level 0 = chars "LOW" := by
    unfold get_threat_level
    norm_num
  refine ⟨fun t => ?_, fun f => rfl, fun m f e h => ?_, fun m t e h => ?_⟩
  · constructor
    · show get_threat_level (predict_anomaly none (extract_features [])) = chars "LOW"
      show get_threat_level (heuristic_score (extract_features [])) = chars "LOW"
      rw [hfeat0, hlow]
    · show predict_anomaly none (extract_features []) = 0
      show heuristic_score (extract_features []) = 0
      exact hfeat0
  · show (match m f with
      | Except.ok s => s
      | Except.error _ => heuristic_score f) = heuristic_score f
    rw [h]
  · show get_threat_level (predict_anomaly (some m) (extract_features [])) = chars "LOW"
    have : predict_anomaly (some m) (extract_features []) =
        heuristic_score (extract_features []) := by
      show (match m (extract_features []) with
        | Except.ok s => s
        | Except.error _ => heuristic_score (extract_features [])) = _
      rw [h]
    rw [this, hfeat0, hlow]

/-- Witness for C4: a model that always raises, on a concrete command. -/
theorem analyzer_error_handling_witness :
    predict_anomaly (some (fun _ => Except.error (chars "boom")))
        (extract_features (chars "ls")) =
      heuristic_score (extract_features (chars "ls")) ∧
    (validate_command (some (fun _ => Except.error (chars "boom"))) [] 0).threat_level =
      chars "LOW" :=
  ⟨analyzer_error_handling.2.2.1 (fun _ => Except.error (chars "boom"))
      (extract_features (chars "ls")) (chars "boom") rfl,
    analyzer_error_handling.2.2.2 (fun _ => Except.error (chars "boom")) 0
      (chars "boom") rfl⟩

/-- C9, counterexample.  A configured notifier called without an anomaly
score (its `None` default) raises `TypeError` while formatting the message
with `:.3f`, before any delivery is attempted — so `send_alert` can raise
into its caller. -/
theorem send_alert_raises_on_missing_score :
    send_alert ⟨some (chars "T"), some (chars "C")⟩ (fun _ => PostOutcome.success true)
        (chars "ls") (chars "9.9.9.9") (chars "HIGH") none [] (chars "2024-01-15") =
      Except.error PyErr.typeError := rfl

/-- C9 as amended: when no sink is configured every call is a silent no-op
returning `False` without error; when a score is supplied the call never
raises, and any delivery failure (timeout, request error, API rejection) is
discarded as a `False` result; only the configured call without a score
raises. -/
theorem send_alert_error_handling (cfg : TelegramConfig) (post : Str → PostOutcome)
    (cmd ip lvl : Str) (info : List (Str × Str)) (now : Str) :
    (is_configured cfg = false →
      ∀ sc : Option ℚ, send_alert cfg post cmd ip lvl sc info now = Except.ok false) ∧
    (∀ sc : ℚ, (send_alert cfg post cmd ip lvl (some sc) info now).isOk = true) ∧
    (∀ sc : ℚ, (∀ t, post t ≠ PostOutcome.success true) →
      send_alert cfg post cmd ip lvl (some sc) info now = Except.ok false) := by
  refine ⟨fun h sc => ?_, fun sc => ?_, fun sc hfail => ?_⟩
  · unfold send_alert
    rw [h]
    rfl
  · unfold send_alert
    by_cases h : is_configured cfg
    · rw [h]
      rfl
    · rw [Bool.not_eq_true] at h
      rw [h]
      rfl
  · unfold send_alert
    by_cases h : is_configured cfg
    · rw [h]
      show Except.ok (send_message post _) = Except.ok false
      unfold send_message
      rcases hpost : post (if 4096 <
          (buildAlertMessage cmd ip lvl sc info now).length then
            (buildAlertMessage cmd ip lvl sc info now).take 4093 ++ chars "..."
          else buildAlertMessage cmd ip lvl sc info now) with apiOk | _ | _ | _
      · cases apiOk with
        | false => simp [hpost]
        | true => exact absurd hpost (hfail _)
      · simp [hpost]
      · simp [hpost]
      · simp [hpost]
    · rw [Bool.not_eq_true] at h
      rw [h]
      rfl

/-- Witness for C9 (amended): an unconfigured manager is a no-op, and a
configured one whose transport always times out returns `False` without
raising. -/
theorem send_alert_error_handling_witness :
    send_alert ⟨none, none⟩ (fun _ => PostOutcome.timeoutErr) (chars "rm -rf /tmp")
        (chars "9.9.9.9") (chars "CRITICAL") none [] (chars "t") = Except.ok false ∧
    send_alert ⟨some (chars "T"), some (chars "C")⟩ (fun _ => PostOutcome.timeoutErr)
        (chars "rm -rf /tmp") (chars "9.9.9.9") (chars "CRITICAL") (some 0.9) []
        (chars "t") = Except.ok false :=
  ⟨(send_alert_error_handling ⟨none, none⟩ (fun _ => PostOutcome.timeoutErr)
      (chars "rm -rf /tmp") (chars "9.9.9.9") (chars "CRITICAL") [] (chars "t")).1 rfl none,
    (send_alert_error_handling ⟨some (chars "T"), some (chars "C")⟩
      (fun _ => PostOutcome.timeoutErr) (chars "rm -rf /tmp") (chars "9.9.9.9")
      (chars "CRITICAL") [] (chars "t")).2.2 0.9
      (fun _ h => PostOutcome.noConfusion h)⟩

/-- C8, counterexample.  `"date"` is a LOW-tier command (its heuristic score
is 0), yet the renderer embeds the current clock in the `date` branch, so
two calls at different instants produce different bytes even with the
randomness source fixed. -/
theorem low_tier_response_differs_across_calls :
    (validate_command none (chars "date") 0).threat_level = chars "LOW" ∧
    generate_response (chars "date") (chars "LOW") (chars "10:30:45") 0 ≠
      generate_response (chars "date") (chars "LOW") (chars "10:30:46") 0 := by
  constructor
  · have h0 : heuristic_score (extract_features (chars "date")) = 0 := by
      have h1 : (extract_features (chars "date")).length = 4 := rfl
      have h2 : (extract_features (chars "date")).suspicious_patterns = 0 := rfl
      have h3 : (extract_features (chars "date")).special_char_count = 0 := rfl
      have h4 : (extract_features (chars "date")).entropy_gt_four = false := rfl
      have h5 : (extract_features (chars "date")).has_file_path = false := rfl
      unfold heuristic_score
      rw [h1, h2, h3, h4, h5]
      norm_num
    show get_threat_level (predict_anomaly none (extract_features (chars "date"))) =
      chars "LOW"
    show get_threat_level (heuristic_score (extract_features (chars "date"))) =
      chars "LOW"
    rw [h0]
    unfold get_threat_level
    norm_num
  · decide

/-- Bodies produced by the response table depend on the clock only through
the `date` branch: any command that does not reach it renders identically at
any two instants. -/
theorem get_command_response_clock_independent (cmd clock1 clock2 : Str)
    (h : isPrefB (chars "date") (lowerStr cmd) = false) :
    get_command_response cmd clock1 = get_command_response cmd clock2 := by
  unfold get_command_response
  simp only [h, Bool.false_eq_true, if_false]

/-- C8 as amended: for every LOW-tier command except those hitting the
clock-embedding `date` branch, repeated renderings are byte-identical
whatever the randomness index or instant (the LOW tier appends no
randomized notice). -/
theorem low_tier_response_deterministic (cmd clock1 clock2 : Str) (r1 r2 : ℕ)
    (h : isPrefB (chars "date") (lowerStr (stripStr cmd)) = false) :
    generate_response cmd (chars "LOW") clock1 r1 =
      generate_response cmd (chars "LOW") clock2 r2 := by
  unfold generate_response
  have hb : (decide (chars "LOW" = chars "HIGH") ||
      decide (chars "LOW" = chars "CRITICAL")) = false := rfl
  have hm : decide (chars "LOW" = chars "MEDIUM") = false := rfl
  simp only [hb, hm, Bool.false_eq_true, if_false]
  rw [get_command_response_clock_independent (stripStr cmd) clock1 clock2 h]

/-- Witness for C8 (amended): the `pwd` command at two instants and two
randomness indices. -/
theorem low_tier_response_deterministic_witness :
    generate_response (chars "pwd") (chars "LOW") (chars "10:30:45") 0 =
      generate_response (chars "pwd") (chars "LOW") (chars "23:59:59") 4 :=
  low_tier_response_deterministic (chars "pwd") (chars "10:30:45") (chars "23:59:59")
    0 4 rfl

/-- C3, counterexample.  Appending one occurrence of the known suspicious
substring `"whoami"` (from the reconnaissance category) to the command
`"ab!!cdef-."` dilutes the special-character ratio below the 0.3 threshold:
the `suspicious_patterns` bucket drops from 0.2 to 0 and the total anomaly
score drops from 0.15 to 0.135, so inserting an extra occurrence of a known
suspicious substring can decrease both a bucket score and the total score. -/
theorem suspicious_substring_insertion_not_monotone :
    chars "ab!!cdef-.whoami" = chars "ab!!cdef-." ++ chars "whoami" ∧
    chars "whoami" ∈ reconPatterns ∧
    (threatScoring (chars "ab!!cdef-.whoami") (chars "192.168.1.5")).suspicious_patterns <
      (threatScoring (chars "ab!!cdef-.") (chars "192.168.1.5")).suspicious_patterns ∧
    anomalyScore (chars "ab!!cdef-.whoami") (chars "192.168.1.5") <
      anomalyScore (chars "ab!!cdef-.") (chars "192.168.1.5") := by
  have e1 : bSuspicious (chars "ab!!cdef-.") = 0.2 := by
    unfold bSuspicious bSuspiciousRest
    have hr : charRatioVal (chars "ab!!cdef-.") = 4 / 10 := by
      unfold charRatioVal
      rw [show (chars "ab!!cdef-.").isEmpty = false from rfl]
      rw [show specialCount (chars "ab!!cdef-.") = 4 from rfl]
      rw [show (chars "ab!!cdef-.").length = 10 from rfl]
      norm_num
    rw [show chainFlag (chars "ab!!cdef-.") = false from rfl]
    rw [show substFlag (chars "ab!!cdef-.") = false from rfl]
    rw [show quoteFlag (chars "ab!!cdef-.") = false from rfl]
    rw [hr, if_pos (by norm_num : (0.3 : ℚ) < 4 / 10)]
    norm_num
  have e2 : bSuspicious (chars "ab!!cdef-.whoami") = 0 := by
    unfold bSuspicious bSuspiciousRest
    have hr : charRatioVal (chars "ab!!cdef-.whoami") = 4 / 16 := by
      unfold charRatioVal
      rw [show (chars "ab!!cdef-.whoami").isEmpty = false from rfl]
      rw [show specialCount (chars "ab!!cdef-.whoami") = 4 from rfl]
      rw [show (chars "ab!!cdef-.whoami").length = 16 from rfl]
      norm_num
    rw [show chainFlag (chars "ab!!cdef-.whoami") = false from rfl]
    rw [show substFlag (chars "ab!!cdef-.whoami") = false from rfl]
    rw [show quoteFlag (chars "ab!!cdef-.whoami") = false from rfl]
    rw [hr, if_neg (by norm_num : ¬((0.3 : ℚ) < 4 / 16))]
    norm_num
  refine ⟨rfl, by decide, ?_, ?_⟩
  · show bSuspicious (chars "ab!!cdef-.whoami") < bSuspicious (chars "ab!!cdef-.")
    rw [e1, e2]
    norm_num
  · have t1 : totalScore (chars "ab!!cdef-.") (chars "192.168.1.5") = 0.2 := by
      unfold totalScore
      simp only [threatScoring]
      rw [e1]
      rw [show bComplexity (chars "ab!!cdef-.") = if 150 < 10 then 0.2
        else if 100 < 10 then 0.15 else 0 from rfl]
      unfold bPrivilege bDataAccess bSystemMod bNetwork bCodeExec bInfoGather
      rw [show presentCount privEscPatterns (cmdLower (chars "ab!!cdef-.")) = 0 from rfl]
      rw [show presentCount dataAccessPatterns (cmdLower (chars "ab!!cdef-.")) = 0 from rfl]
      rw [show presentCount sysDestrPatterns (cmdLower (chars "ab!!cdef-.")) = 0 from rfl]
      rw [show presentCount fileManipPatterns (cmdLower (chars "ab!!cdef-.")) = 0 from rfl]
      rw [show presentCount netExploitPatterns (cmdLower (chars "ab!!cdef-.")) = 0 from rfl]
      rw [show presentCount codeExecPatterns (cmdLower (chars "ab!!cdef-.")) = 0 from rfl]
      rw [show presentCount reconPatterns (cmdLower (chars "ab!!cdef-.")) = 0 from rfl]
      rw [show externalIpFlag (chars "192.168.1.5") = false from rfl]
      norm_num
    have t2 : totalScore (chars "ab!!cdef-.whoami") (chars "192.168.1.5") = 0.18 := by
      unfold totalScore
      simp only [threatScoring]
      rw [e2]
      rw [show bComplexity (chars "ab!!cdef-.whoami") = if 150 < 16 then 0.2
        else if 100 < 16 then 0.15 else 0 from rfl]
      unfold bPrivilege bDataAccess bSystemMod bNetwork bCodeExec bInfoGather
      rw [show presentCount privEscPatterns (cmdLower (chars "ab!!cdef-.whoami")) = 0 from rfl]
      rw [show presentCount dataAccessPatterns (cmdLower (chars "ab!!cdef-.whoami")) = 0 from rfl]
      rw [show presentCount sysDestrPatterns (cmdLower (chars "ab!!cdef-.whoami")) = 0 from rfl]
      rw [show presentCount fileManipPatterns (cmdLower (chars "ab!!cdef-.whoami")) = 0 from rfl]
      rw [show presentCount netExploitPatterns (cmdLower (chars "ab!!cdef-.whoami")) = 0 from rfl]
      rw [show presentCount codeExecPatterns (cmdLower (chars "ab!!cdef-.whoami")) = 0 from rfl]
      rw [show presentCount reconPatterns (cmdLower (chars "ab!!cdef-.whoami")) = 1 from rfl]
      rw [show externalIpFlag (chars "192.168.1.5") = false from rfl]
      norm_num
    unfold anomalyScore
    rw [t1, t2]
    rw [show ((0.2 : ℚ) * 0.75) = 0.15 by norm_num]
    rw [show ((0.18 : ℚ) * 0.75) = 0.135 by norm_num]
    rw [min_eq_right (by norm_num : (0.15 : ℚ) ≤ 1)]
    rw [min_eq_right (by norm_num : (0.135 : ℚ) ≤ 1)]
    norm_num

/-- `isPrefB` decides the prefix relation. -/
theorem isPrefB_iff (p : Str) : ∀ s : Str, isPrefB p s = true ↔ p <+: s := by
  induction p with
  | nil =>
    intro s
    simp [isPrefB, List.nil_prefix]
  | cons a as ih =>
    intro s
    cases s with
    | nil =>
      simp [isPrefB]
    | cons b bs =>
      simp [isPrefB, List.cons_prefix_cons, ih bs, And.comm]

/-- `containsSub` decides the substring (infix) relation, matching Python's
`in` operator. -/
theorem containsSub_iff (p : Str) : ∀ s : Str, containsSub s p = true ↔ p <:+: s := by
  intro s
  induction s with
  | nil =>
    simp [containsSub, List.infix_nil, List.isEmpty_iff]
  | cons c rest ih =>
    simp [containsSub, isPrefB_iff, ih, List.infix_cons_iff]

/-- A substring survives appending on the right. -/
theorem containsSub_append_right (s t p : Str) (h : containsSub s p = true) :
    containsSub (s ++ t) p = true := by
  rw [containsSub_iff] at *
  obtain ⟨u, v, rfl⟩ := h
  exact ⟨u, v ++ t, by simp⟩

/-- `rstrip` yields a prefix of its input. -/
theorem rstrip_prefix (l : Str) : rstrip l <+: l := by
  unfold rstrip
  have h : List.dropWhile isPySpace l.reverse <:+ l.reverse :=
    List.dropWhile_suffix isPySpace
  have h2 := List.reverse_prefix.mpr h
  rwa [List.reverse_reverse] at h2

/-- Stripping a string yields a prefix of the stripped extension: whatever
`strip` keeps of `a` survives (as a prefix) in `strip (a ++ b)` — if `b` is
all blank the two strips are equal, otherwise the kept part of `a` is intact
and material of `b` follows. -/
theorem stripStr_prefix_append (a b : Str) : stripStr a <+: stripStr (a ++ b) := by
  unfold stripStr lstrip rstrip
  rw [List.dropWhile_append]
  by_cases ha : (List.dropWhile isPySpace a).isEmpty
  · rw [if_pos ha]
    rw [List.isEmpty_iff.mp ha]
    simp [List.nil_prefix]
  · rw [if_neg ha]
    rw [List.reverse_append, List.dropWhile_append]
    by_cases hb : (List.dropWhile isPySpace b.reverse).isEmpty
    · rw [if_pos hb]
    · rw [if_neg hb]
      rw [List.reverse_append, List.reverse_reverse]
      have hpre : (List.dropWhile isPySpace
          (List.dropWhile isPySpace a).reverse).reverse <+:
          List.dropWhile isPySpace a := rstrip_prefix _
      exact hpre.trans (List.prefix_append _ _)

/-- The pattern-matching input `command.lower().strip()` of the extended
command keeps that of the original command as a prefix. -/
theorem cmdLower_prefix_append (cmd ext : Str) :
    cmdLower cmd <+: cmdLower (cmd ++ ext) := by
  unfold cmdLower lowerStr
  rw [List.map_append]
  exact stripStr_prefix_append _ _

/-- A pattern matched in the original command is still matched after the
command is extended on the right. -/
theorem containsSub_cmdLower_mono (cmd ext p : Str)
    (h : containsSub (cmdLower cmd) p = true) :
    containsSub (cmdLower (cmd ++ ext)) p = true := by
  rw [containsSub_iff] at *
  exact h.trans (cmdLower_prefix_append cmd ext).isInfix

/-- The per-category matched-pattern count never decreases when the command
is extended on the right. -/
theorem presentCount_mono (pats : List Str) (cmd ext : Str) :
    presentCount pats (cmdLower cmd) ≤ presentCount pats (cmdLower (cmd ++ ext)) := by
  unfold presentCount
  exact List.countP_mono_left (fun p _ hp => containsSub_cmdLower_mono cmd ext p hp)

/-- A guarded weight is monotone along a Boolean implication. -/
theorem flag_ite_mono (b1 b2 : Bool) (w : ℚ) (hw : 0 ≤ w) (h : b1 = true → b2 = true) :
    (if b1 then w else 0) ≤ (if b2 then w else 0) := by
  cases b1 <;> cases b2 <;> simp_all

/-- Command chaining survives appending. -/
theorem chainFlag_mono (cmd ext : Str) (h : chainFlag cmd = true) :
    chainFlag (cmd ++ ext) = true := by
  unfold chainFlag at *
  simp only [Bool.or_eq_true] at h ⊢
  rcases h with (h | h) | h
  · exact Or.inl (Or.inl (containsSub_append_right _ _ _ h))
  · exact Or.inl (Or.inr (containsSub_append_right _ _ _ h))
  · exact Or.inr (containsSub_append_right _ _ _ h)

/-- Command substitution survives appending. -/
theorem substFlag_mono (cmd ext : Str) (h : substFlag cmd = true) :
    substFlag (cmd ++ ext) = true := by
  unfold substFlag at *
  simp only [Bool.or_eq_true] at h ⊢
  rcases h with h | h
  · exact Or.inl (containsSub_append_right _ _ _ h)
  · exact Or.inr (containsSub_append_right _ _ _ h)

/-- Complex quoting survives appending (quote counts only grow). -/
theorem quoteFlag_mono (cmd ext : Str) (h : quoteFlag cmd = true) :
    quoteFlag (cmd ++ ext) = true := by
  unfold quoteFlag at *
  simp only [Bool.or_eq_true, decide_eq_true_eq, List.count_append] at h ⊢
  omega

/-- The command-complexity bucket is monotone in command extension. -/
theorem bComplexity_mono (cmd ext : Str) :
    bComplexity cmd ≤ bComplexity (cmd ++ ext) := by
  have hl : cmd.length ≤ (cmd ++ ext).length := by simp
  unfold bComplexity
  split_ifs <;> first | (exfalso; omega) | norm_num

/-- The chaining/substitution/quoting part of `suspicious_patterns` is
monotone in command extension. -/
theorem bSuspiciousRest_mono (cmd ext : Str) :
    bSuspiciousRest cmd ≤ bSuspiciousRest (cmd ++ ext) := by
  unfold bSuspiciousRest
  have h1 := flag_ite_mono (chainFlag cmd) (chainFlag (cmd ++ ext)) 0.15 (by norm_num)
    (chainFlag_mono cmd ext)
  have h2 := flag_ite_mono (substFlag cmd) (substFlag (cmd ++ ext)) 0.18 (by norm_num)
    (substFlag_mono cmd ext)
  have h3 := flag_ite_mono (quoteFlag cmd) (quoteFlag (cmd ++ ext)) 0.12 (by norm_num)
    (quoteFlag_mono cmd ext)
  linarith

/-- A matched-count bucket with a nonnegative weight is monotone in command
extension. -/
theorem countBucket_mono (pats : List Str) (cmd ext : Str) (w : ℚ) (hw : 0 ≤ w) :
    (presentCount pats (cmdLower cmd) : ℚ) * w ≤
      (presentCount pats (cmdLower (cmd ++ ext)) : ℚ) * w :=
  mul_le_mul_of_nonneg_right (Nat.cast_le.mpr (presentCount_mono pats cmd ext)) hw

/-- C3 as amended: appending one more occurrence of a known suspicious
substring (indeed any suffix) never decreases the command-complexity bucket,
the chaining/substitution/quoting contributions to `suspicious_patterns`, or
any of the six pattern-table buckets.  (Per the counterexample, the
character-ratio contribution to `suspicious_patterns` — and with it the
bucket and the total score — can still decrease, and insertion in the middle
of the command can also destroy existing matches.) -/
theorem append_pattern_weights_monotone (cmd ext ip : Str) :
    bComplexity cmd ≤ bComplexity (cmd ++ ext) ∧
    bSuspiciousRest cmd ≤ bSuspiciousRest (cmd ++ ext) ∧
    bPrivilege cmd ≤ bPrivilege (cmd ++ ext) ∧
    bDataAccess cmd ≤ bDataAccess (cmd ++ ext) ∧
    bSystemMod cmd ≤ bSystemMod (cmd ++ ext) ∧
    bNetwork cmd ip ≤ bNetwork (cmd ++ ext) ip ∧
    bCodeExec cmd ≤ bCodeExec (cmd ++ ext) ∧
    bInfoGather cmd ≤ bInfoGather (cmd ++ ext) := by
  refine ⟨bComplexity_mono cmd ext, bSuspiciousRest_mono cmd ext, ?_, ?_, ?_, ?_, ?_, ?_⟩
  · exact countBucket_mono privEscPatterns cmd ext 0.25 (by norm_num)
  · exact countBucket_mono dataAccessPatterns cmd ext 0.2 (by norm_num)
  · unfold bSystemMod
    have h1 := countBucket_mono sysDestrPatterns cmd ext 0.3 (by norm_num)
    have h2 := countBucket_mono fileManipPatterns cmd ext 0.15 (by norm_num)
    linarith
  · unfold bNetwork
    have h1 := countBucket_mono netExploitPatterns cmd ext 0.22 (by norm_num)
    linarith
  · exact countBucket_mono codeExecPatterns cmd ext 0.28 (by norm_num)
  · exact countBucket_mono reconPatterns cmd ext 0.18 (by norm_num)
